import Mathlib

/-!
Shallow embedding of the secure-container repository:
two move-only containers, `SecureBuffer` (from SecureBuffer.cpp) and
`SecureString` (from SecureString.cpp), sharing a secure-wipe discipline.

Bytes are modelled as `Nat`, a heap allocation as a `List Nat`, a raw
pointer (`char *` / `unique_ptr<char[]>.get()` / `vector<char>.data()`)
as an `Option (List Nat)` where `none` is the null pointer.
Operations that release heap allocations return the list of released
allocations (with the byte contents they held at the moment of release),
the instrumentation the spec describes for observing wipe-before-free.
-/

/-- The byte-zeroing loop `while (len--) { *p++ = 0; }`: writes a zero to
each of the first `len` bytes of the buffer. -/
def wipeBytes : List Nat → Nat → List Nat
  | bs, 0 => bs
  | [], _ + 1 => []
  | _ :: bs, n + 1 => 0 :: wipeBytes bs n

/-- Every byte of the allocation is zero. -/
def allZero (bs : List Nat) : Bool :=
  bs.all (fun b => b == 0)

/-- `SecureBuffer`: a `unique_ptr<char[]> data` (null = `none`) and a
`size_t size`, from SecureBuffer.cpp. -/
structure SecureBuffer where
  data : Option (List Nat)
  size : Nat
  deriving Repr, DecidableEq

/-- `SecureBuffer::secure_wipe(void *ptr, size_t len)`:
`if (!ptr || len == 0) return;` then the volatile zeroing loop.
The outer `Option` is the execution outcome (`none` would be a crash /
undefined behaviour; this wipe never produces it), the inner
`Option (List Nat)` the memory the pointer refers to after the call. -/
def SecureBuffer.secure_wipe (ptr : Option (List Nat)) (len : Nat) :
    Option (Option (List Nat)) :=
  if ptr = none ∨ len = 0 then some ptr
  else some (ptr.map (fun bs => wipeBytes bs len))

/-- `secure_wipe(data.get(), size)` as called on the object's own fields. -/
def SecureBuffer.wipeSelf (a : SecureBuffer) : Option (List Nat) :=
  match SecureBuffer.secure_wipe a.data a.size with
  | some p => p
  | none => none

/-- `SecureBuffer::SecureBuffer(size_t s)`:
`data(std::make_unique<char[]>(s)), size(s)` (value-initialized, so the
`s` fresh bytes are zero), then `if (data) std::fill(data.get(),
data.get() + size, 0)` which writes zeros over the first `size` bytes. -/
def SecureBuffer.construct (s : Nat) : SecureBuffer :=
  let d : Option (List Nat) := some (List.replicate s 0)
  let d := match d with
    | none => none
    | some bs => some (wipeBytes bs s)
  ⟨d, s⟩

/-- Construction with the allocator outcome made explicit:
`std::make_unique` either yields the allocation or throws `bad_alloc`,
which propagates out of the constructor, so either a fully constructed
object is produced or none at all. -/
def SecureBuffer.constructE (allocOk : Bool) (s : Nat) :
    Except Unit SecureBuffer :=
  if allocOk then Except.ok (SecureBuffer.construct s)
  else Except.error ()

/-- `SecureBuffer::SecureBuffer(SecureBuffer &&other)`:
`data(std::move(other.data))` (the source's `unique_ptr` becomes null),
`size(std::exchange(other.size, 0))`. Returns (new object, source after
the move). -/
def SecureBuffer.moveCtor (other : SecureBuffer) :
    SecureBuffer × SecureBuffer :=
  (⟨other.data, other.size⟩, ⟨none, 0⟩)

/-- `SecureBuffer::operator=(SecureBuffer &&other)`, the branch for
distinct objects (`this != &other`): `secure_wipe(data.get(), size)` on
the current object, then `swap(data, other.data); swap(size, other.size)`.
Returns (this after, other after); no allocation is released. -/
def SecureBuffer.moveAssign (a other : SecureBuffer) :
    SecureBuffer × SecureBuffer :=
  let wiped := SecureBuffer.wipeSelf a
  (⟨other.data, other.size⟩, ⟨wiped, a.size⟩)

/-- `SecureBuffer::~SecureBuffer()`: `secure_wipe(data.get(), size)`,
then the `unique_ptr` destructor runs `delete[]` when non-null.
Returns the allocations released, with their contents at release. -/
def SecureBuffer.dtor (a : SecureBuffer) : List (List Nat) :=
  match SecureBuffer.secure_wipe a.data a.size with
  | some (some bs) => [bs]
  | _ => []

/-- `SecureBuffer::data_ptr()`: returns `data.get()`. -/
def SecureBuffer.data_ptr (a : SecureBuffer) : Option (List Nat) :=
  a.data

/-- `SecureBuffer::size_bytes()`: returns `size`. -/
def SecureBuffer.size_bytes (a : SecureBuffer) : Nat :=
  a.size

/-- The class invariant the constructor establishes and every operation
preserves: a null `data` goes with `size = 0`, and a non-null `data`
refers to an allocation of exactly `size` bytes. -/
def SecureBuffer.WF (a : SecureBuffer) : Bool :=
  match a.data with
  | none => a.size == 0
  | some bs => bs.length == a.size

/-- The full `operator=` including its `this != &other` guard, modelled
on a store of objects addressed by index so that pointer identity
(`this == &other`) is the identity of indices `i = j`. -/
def SecureBuffer.assignOp (store : Nat → SecureBuffer) (i j : Nat) :
    Nat → SecureBuffer :=
  if i = j then store
  else fun k =>
    if k = i then (SecureBuffer.moveAssign (store i) (store j)).1
    else if k = j then (SecureBuffer.moveAssign (store i) (store j)).2
    else store k

/-- `SecureString`: a `std::vector<char> data`, from SecureString.cpp.
The vector is its element sequence; `data.data()` is null (or otherwise
not dereferenceable) exactly when the vector holds no elements. -/
structure SecureString where
  data : List Nat
  deriving Repr, DecidableEq

/-- The pointer `v.data()` of a `std::vector<char>`: null for an empty
vector, otherwise a pointer to the element bytes. -/
def vecPtr (v : List Nat) : Option (List Nat) :=
  if v = [] then none else some v

/-- `SecureString::secure_wipe(void* ptr, size_t len)`, the portable
fallback branch: no guard, just `while (len--) { *p++ = 0; }`. With
`len = 0` the loop body never runs, so the call returns having touched
nothing; with a null `ptr` and positive `len` the first iteration writes
through the null pointer — undefined behaviour, modelled as the outer
`none`. -/
def SecureString.secure_wipe (ptr : Option (List Nat)) (len : Nat) :
    Option (Option (List Nat)) :=
  if len = 0 then some ptr
  else match ptr with
    | none => none
    | some bs => some (some (wipeBytes bs len))

/-- `secure_wipe(data.data(), data.size())` as called on a vector `v`:
the resulting element bytes. -/
def SecureString.wipeVec (v : List Nat) : List Nat :=
  match SecureString.secure_wipe (vecPtr v) v.length with
  | some (some bs) => bs
  | some none => []
  | none => []

/-- `SecureString::SecureString(const std::string& str)`:
`data.resize(str.size() + 1)` (fresh elements value-initialized to 0),
`std::copy(str.begin(), str.end(), data.begin())`,
`data[str.size()] = 0`. -/
def SecureString.ctor (str : List Nat) : SecureString :=
  let d := List.replicate (str.length + 1) 0
  let d := str ++ d.drop str.length
  let d := d.set str.length 0
  ⟨d⟩

/-- `SecureString::SecureString(SecureString&& other)`:
`data(std::move(other.data))` leaves the source vector empty; then
`other.secure_wipe(other.data.data(), other.data.size())` runs on that
empty vector, and `other.data.clear()`. Returns (new object, source
after the move). -/
def SecureString.moveCtor (other : SecureString) :
    SecureString × SecureString :=
  let newData := other.data
  let src : List Nat := []
  let src := SecureString.wipeVec src
  let src : List Nat := []
  (⟨newData⟩, ⟨src⟩)

/-- `SecureString::operator=(SecureString&& other)`, the branch for
distinct objects: `secure_wipe(data.data(), data.size())` on the current
vector, then `data = std::move(other.data)` — which releases the current
object's (just wiped) allocation and leaves the source vector empty —
then the wipe of the now-empty source and `other.data.clear()`.
Returns (this after, source after, allocations released). -/
def SecureString.moveAssign (a other : SecureString) :
    SecureString × SecureString × List (List Nat) :=
  let wiped := SecureString.wipeVec a.data
  let freed := [wiped]
  let aData := other.data
  let src : List Nat := []
  let src := SecureString.wipeVec src
  let src : List Nat := []
  (⟨aData⟩, ⟨src⟩, freed)

/-- `SecureString::~SecureString()`: `secure_wipe(data.data(),
data.size())`, then the vector destructor releases the storage.
Returns the allocations released, with their contents at release. -/
def SecureString.dtor (a : SecureString) : List (List Nat) :=
  [SecureString.wipeVec a.data]

/-- `SecureString::c_str()`: returns `data.data()`. -/
def SecureString.c_str (a : SecureString) : Option (List Nat) :=
  vecPtr a.data

/-- `SecureString::size()`: `return data.size() ? data.size() - 1 : 0;`. -/
def SecureString.size (a : SecureString) : Nat :=
  if a.data.length = 0 then 0 else a.data.length - 1

/-- The full `operator=` including its `this != &other` guard, modelled
on a store of objects addressed by index, pointer identity being index
identity; also returns the allocations released. -/
def SecureString.assignOp (store : Nat → SecureString) (i j : Nat) :
    (Nat → SecureString) × List (List Nat) :=
  if i = j then (store, [])
  else
    ((fun k =>
      if k = i then (SecureString.moveAssign (store i) (store j)).1
      else if k = j then (SecureString.moveAssign (store i) (store j)).2.1
      else store k),
     (SecureString.moveAssign (store i) (store j)).2.2)

/-! Basic lemmas about the wipe loop and the two classes. -/

lemma wipeBytes_length (bs : List Nat) (n : Nat) :
    (wipeBytes bs n).length = bs.length := by
  induction bs generalizing n with
  | nil => cases n <;> simp [wipeBytes]
  | cons b bs ih => cases n with
    | zero => simp [wipeBytes]
    | succ m => simp [wipeBytes, ih]

lemma wipeBytes_full (bs : List Nat) :
    wipeBytes bs bs.length = List.replicate bs.length 0 := by
  induction bs with
  | nil => simp [wipeBytes]
  | cons b bs ih => simp [wipeBytes, List.replicate, ih]

lemma allZero_replicate (n : Nat) :
    allZero (List.replicate n 0) = true := by
  simp [allZero, List.all_eq_true]

lemma allZero_iff (bs : List Nat) :
    allZero bs = true ↔ ∀ b ∈ bs, b = 0 := by
  simp [allZero, List.all_eq_true]

lemma wipeVec_eq (v : List Nat) :
    SecureString.wipeVec v = List.replicate v.length 0 := by
  cases v with
  | nil => simp [SecureString.wipeVec, SecureString.secure_wipe, vecPtr]
  | cons b bs =>
    simp [SecureString.wipeVec, SecureString.secure_wipe, vecPtr]
    exact wipeBytes_full (b :: bs)

lemma SecureString.ctor_data (str : List Nat) :
    (SecureString.ctor str).data = str ++ [0] := by
  have h2 : ∀ (l : List Nat), (l ++ [0]).set l.length 0 = l ++ [0] := by
    intro l
    induction l with
    | nil => rfl
    | cons x xs ih => simp [List.set, ih]
  show ((str ++ (List.replicate (str.length + 1) 0).drop str.length).set
      str.length 0) = str ++ [0]
  rw [List.drop_replicate]
  have h3 : str.length + 1 - str.length = 1 := by omega
  rw [h3]
  exact h2 str

lemma SecureBuffer.construct_data (s : Nat) :
    (SecureBuffer.construct s).data = some (List.replicate s 0) := by
  show some (wipeBytes (List.replicate s 0) s) = some (List.replicate s 0)
  have h := wipeBytes_full (List.replicate s (0 : Nat))
  simpa using h

lemma SecureBuffer.WF_length (a : SecureBuffer) (bs : List Nat)
    (h : SecureBuffer.WF a = true) (hd : a.data = some bs) :
    bs.length = a.size := by
  unfold SecureBuffer.WF at h
  rw [hd] at h
  simpa using h

lemma SecureBuffer.wipeSelf_WF (a : SecureBuffer)
    (h : SecureBuffer.WF a = true) :
    a.wipeSelf = Option.map (fun _ => List.replicate a.size 0) a.data := by
  unfold SecureBuffer.wipeSelf SecureBuffer.secure_wipe
  cases hd : a.data with
  | none => simp
  | some bs =>
    have hlen : bs.length = a.size := SecureBuffer.WF_length a bs h hd
    by_cases hs : a.size = 0
    · have hbs : bs = [] := by
        have : bs.length = 0 := by omega
        simpa using this
      simp [hs, hbs]
    · have hne : ¬ (some bs = none ∨ a.size = 0) := by simp [hs]
      rw [if_neg hne]
      have hw : wipeBytes bs a.size = List.replicate a.size 0 := by
        rw [← hlen, wipeBytes_full]
      simp [hw]

lemma SecureBuffer.dtor_WF (a : SecureBuffer)
    (h : SecureBuffer.WF a = true) :
    a.dtor = [] ∨ a.dtor = [List.replicate a.size 0] := by
  unfold SecureBuffer.dtor SecureBuffer.secure_wipe
  cases hd : a.data with
  | none => simp
  | some bs =>
    have hlen : bs.length = a.size := SecureBuffer.WF_length a bs h hd
    by_cases hs : a.size = 0
    · have hbs : bs = [] := by
        have : bs.length = 0 := by omega
        simpa using this
      right
      simp [hs, hbs]
    · have hne : ¬ (some bs = none ∨ a.size = 0) := by simp [hs]
      rw [if_neg hne]
      have hw : wipeBytes bs a.size = List.replicate a.size 0 := by
        rw [← hlen, wipeBytes_full]
      right
      simp [hw]

lemma SecureString.dtor_eq (a : SecureString) :
    a.dtor = [List.replicate a.data.length 0] := by
  unfold SecureString.dtor
  rw [wipeVec_eq]

/-! Claim theorems. -/

/-- Claim C3: for every byte sequence `s`, `SecureString(s).c_str()`
yields exactly `s` followed by one zero terminator and `size()` equals
`len(s)`; for the empty input the underlying storage is exactly one byte
holding the terminator and `size()` is `0`. -/
theorem string_ctor_round_trip (s : List Nat) :
    (SecureString.ctor s).c_str = some (s ++ [0]) ∧
    (SecureString.ctor s).size = s.length ∧
    (SecureString.ctor []).data = [0] ∧
    (SecureString.ctor []).size = 0 := by
  have hd := SecureString.ctor_data s
  refine ⟨?_, ?_, by decide, by decide⟩
  · unfold SecureString.c_str vecPtr
    rw [hd]
    simp
  · unfold SecureString.size
    rw [hd]
    simp

/-- Claim C4: for every size `n`, `SecureBuffer(n)` has
`size_bytes() = n` and its `n` bytes, read through `data_ptr()`, are all
zero immediately after construction. -/
theorem buffer_zero_init (n : Nat) :
    (SecureBuffer.construct n).size_bytes = n ∧
    (SecureBuffer.construct n).data_ptr = some (List.replicate n 0) := by
  exact ⟨rfl, SecureBuffer.construct_data n⟩

/-- Claim C6: `SecureString::size()` returns the storage length minus one
when the storage is non-empty and exactly `0` when the storage is empty;
being `Nat`-valued and guarded, it never wraps below the storage length. -/
theorem string_size_no_underflow (a : SecureString) :
    (a.data ≠ [] → a.size = a.data.length - 1 ∧ a.size < a.data.length) ∧
    (a.data = [] → a.size = 0) := by
  constructor
  · intro h
    have hlen : a.data.length ≠ 0 := by simpa using h
    unfold SecureString.size
    rw [if_neg hlen]
    exact ⟨rfl, by omega⟩
  · intro h
    unfold SecureString.size
    rw [h]
    simp

/-- Witness for C6 at the storage of `SecureString("s")` and at the
empty (moved-from) storage. -/
theorem string_size_no_underflow_witness :
    ((SecureString.mk [115, 0]).data ≠ [] ∧
     (SecureString.mk [115, 0]).size = 1 ∧
     (SecureString.mk [115, 0]).size < 2) ∧
    ((SecureString.mk []).data = [] ∧ (SecureString.mk []).size = 0) := by
  constructor
  · refine ⟨by decide, ?_⟩
    have h := (string_size_no_underflow (SecureString.mk [115, 0])).1 (by decide)
    simpa using h
  · exact ⟨rfl, (string_size_no_underflow (SecureString.mk [])).2 rfl⟩

/-- Claim C7: move-assigning a container to itself (`this == &other`,
index `i = i` in the store model) is a safe no-op for both classes: every
object in the store is unchanged and no allocation is wiped or released. -/
theorem self_assign_noop (storeB : Nat → SecureBuffer)
    (storeS : Nat → SecureString) (i : Nat) :
    SecureBuffer.assignOp storeB i i = storeB ∧
    (SecureString.assignOp storeS i i).1 = storeS ∧
    (SecureString.assignOp storeS i i).2 = [] := by
  unfold SecureBuffer.assignOp SecureString.assignOp
  simp

/-- Claim C8: construction of a `SecureBuffer` either fully succeeds,
yielding an object whose whole buffer is zero-initialized with the
requested size, or the allocation fails and no object is produced;
allocation failure is the only failure mode. -/
theorem buffer_construct_all_or_nothing (allocOk : Bool) (s : Nat) :
    (SecureBuffer.constructE allocOk s =
        Except.ok (SecureBuffer.construct s) ∧
     (SecureBuffer.construct s).data_ptr = some (List.replicate s 0) ∧
     (SecureBuffer.construct s).size_bytes = s ∧ allocOk = true) ∨
    (SecureBuffer.constructE allocOk s = Except.error () ∧
     allocOk = false) := by
  cases allocOk with
  | false => exact Or.inr ⟨rfl, rfl⟩
  | true => exact Or.inl ⟨rfl, SecureBuffer.construct_data s, rfl, rfl⟩

/-- Claim C10: a moved-from `SecureString` has empty storage, so
`c_str()` returns the empty vector's data pointer — null, not a
dereferenceable null-terminated sequence — while `size()` returns `0`. -/
theorem moved_from_c_str (a b : SecureString) :
    (SecureString.moveCtor a).2.data = [] ∧
    (SecureString.moveAssign b a).2.1.data = [] ∧
    (∀ s : SecureString, s.data = [] → s.c_str = none ∧ s.size = 0) := by
  refine ⟨rfl, rfl, ?_⟩
  intro s hs
  unfold SecureString.c_str SecureString.size vecPtr
  rw [hs]
  simp

/-- Witness for C10 at `SecureString("s")` moved from, and at the
empty state itself. -/
theorem moved_from_c_str_witness :
    (SecureString.moveCtor (SecureString.ctor [115])).2.data = [] ∧
    (SecureString.moveAssign (SecureString.ctor [97])
        (SecureString.ctor [115])).2.1.data = [] ∧
    ((SecureString.mk []).c_str = none ∧ (SecureString.mk []).size = 0) := by
  have h := moved_from_c_str (SecureString.ctor [115]) (SecureString.ctor [97])
  exact ⟨h.1, h.2.1, h.2.2 (SecureString.mk []) rfl⟩

/-- Claim C1 is false as stated for the moved-from case: when a
`SecureString` (resp. `SecureBuffer`) is moved from, its storage is
handed to the new owner with the previous contents intact — here the
byte 115 survives the hand-off un-zeroed. -/
theorem move_hands_off_unwiped :
    (SecureString.moveCtor (SecureString.ctor [115])).1.data = [115, 0] ∧
    allZero (SecureString.moveCtor (SecureString.ctor [115])).1.data = false ∧
    (SecureBuffer.moveCtor (SecureBuffer.mk (some [115]) 1)).1.data
      = some [115] ∧
    allZero [115] = false := by decide

/-- Claim C1 (amended): storage that is overwritten by move-assignment or
destroyed is zeroed in full before it is handed off or freed — the
destructor wipes every byte before releasing the allocation (both
classes), and move-assignment between distinct objects first wipes all of
the target's prior bytes (for `SecureBuffer` the wiped prior storage is
then handed to the source by the swap, for `SecureString` it is freed
wiped). Storage relinquished by move-construction is instead handed off
intact to the new owner. -/
theorem wipe_before_release (a b : SecureBuffer) (s t : SecureString)
    (h : SecureBuffer.WF a = true) :
    (∀ bs ∈ a.dtor, allZero bs = true) ∧
    (∀ bs, (SecureBuffer.moveAssign a b).2.data = some bs →
      allZero bs = true) ∧
    (∀ bs ∈ s.dtor, allZero bs = true) ∧
    (∀ bs ∈ (SecureString.moveAssign s t).2.2, allZero bs = true) := by
  refine ⟨?_, ?_, ?_, ?_⟩
  · intro bs hbs
    rcases SecureBuffer.dtor_WF a h with hd | hd <;> rw [hd] at hbs
    · simp at hbs
    · simp at hbs
      rw [hbs]
      exact allZero_replicate _
  · intro bs hbs
    have hw := SecureBuffer.wipeSelf_WF a h
    have hst : (SecureBuffer.moveAssign a b).2.data = a.wipeSelf := rfl
    rw [hst, hw] at hbs
    cases hd : a.data with
    | none => rw [hd] at hbs; simp at hbs
    | some bs0 =>
      rw [hd] at hbs
      simp at hbs
      rw [← hbs]
      exact allZero_replicate _
  · intro bs hbs
    rw [SecureString.dtor_eq] at hbs
    simp at hbs
    rw [hbs]
    exact allZero_replicate _
  · intro bs hbs
    have hst : (SecureString.moveAssign s t).2.2
        = [SecureString.wipeVec s.data] := rfl
    rw [hst, wipeVec_eq] at hbs
    simp at hbs
    rw [hbs]
    exact allZero_replicate _

/-- Witness for C1 (amended) at a buffer holding bytes 7,7, a fresh
buffer of size 1, the string "\x09" and the empty string. -/
theorem wipe_before_release_witness :
    SecureBuffer.WF (SecureBuffer.mk (some [7, 7]) 2) = true ∧
    (∀ bs ∈ (SecureBuffer.mk (some [7, 7]) 2).dtor, allZero bs = true) ∧
    (∀ bs, (SecureBuffer.moveAssign (SecureBuffer.mk (some [7, 7]) 2)
        (SecureBuffer.construct 1)).2.data = some bs → allZero bs = true) ∧
    (∀ bs ∈ (SecureString.ctor [9]).dtor, allZero bs = true) ∧
    (∀ bs ∈ (SecureString.moveAssign (SecureString.ctor [9])
        (SecureString.ctor [])).2.2, allZero bs = true) := by
  have h := wipe_before_release (SecureBuffer.mk (some [7, 7]) 2)
      (SecureBuffer.construct 1) (SecureString.ctor [9])
      (SecureString.ctor []) (by decide)
  exact ⟨by decide, h.1, h.2.1, h.2.2.1, h.2.2.2⟩

/-- Claim C2 is false as stated for SecureBuffer move-assignment: after
`a = move(b)` with `a` of size 5 and `b` of size 3, the swap leaves the
moved-from `b` reporting size 5 — not 0 — and still holding storage
(`a`'s former allocation, wiped). -/
theorem buffer_move_assign_source_not_empty :
    (SecureBuffer.moveAssign (SecureBuffer.construct 5)
        (SecureBuffer.construct 3)).2.size_bytes = 5 ∧
    ¬ (SecureBuffer.moveAssign (SecureBuffer.construct 5)
        (SecureBuffer.construct 3)).2.size_bytes = 0 ∧
    ¬ (SecureBuffer.moveAssign (SecureBuffer.construct 5)
        (SecureBuffer.construct 3)).2.data = none := by decide

/-- Claim C2 (amended): after move-construction the moved-from container
reports size 0, holds no storage, and further destruction or moves from
it are no-ops (both classes); after move-assignment the moved-from
`SecureString` is likewise empty with size 0, but the moved-from
`SecureBuffer` — because the assignment swaps — ends up holding the
target's former storage wiped to all zeros and reporting the target's
former size, and remains safe to destroy (its destructor only ever
releases all-zero bytes). -/
theorem move_empties_source_amended (a b : SecureBuffer)
    (s t : SecureString) (h : SecureBuffer.WF a = true) :
    ((SecureBuffer.moveCtor b).2.size_bytes = 0 ∧
     (SecureBuffer.moveCtor b).2.data = none ∧
     (SecureBuffer.moveCtor b).2.dtor = [] ∧
     (SecureBuffer.moveCtor (SecureBuffer.moveCtor b).2).2
       = SecureBuffer.mk none 0) ∧
    ((SecureBuffer.moveAssign a b).2.size_bytes = a.size_bytes ∧
     (SecureBuffer.moveAssign a b).2.data
       = Option.map (fun _ => List.replicate a.size 0) a.data ∧
     (∀ bs ∈ (SecureBuffer.moveAssign a b).2.dtor, allZero bs = true)) ∧
    ((SecureString.moveCtor s).2.data = [] ∧
     (SecureString.moveCtor s).2.size = 0) ∧
    ((SecureString.moveAssign s t).2.1.data = [] ∧
     (SecureString.moveAssign s t).2.1.size = 0) := by
  have hw := SecureBuffer.wipeSelf_WF a h
  have hst : (SecureBuffer.moveAssign a b).2 = SecureBuffer.mk a.wipeSelf a.size := rfl
  refine ⟨⟨rfl, rfl, rfl, rfl⟩, ⟨rfl, ?_, ?_⟩, ⟨rfl, rfl⟩, ⟨rfl, rfl⟩⟩
  · rw [hst, hw]
  · intro bs hbs
    have hWFres : SecureBuffer.WF ((SecureBuffer.moveAssign a b).2) = true := by
      rw [hst, hw]
      cases hd : a.data with
      | none =>
        have hz : a.size = 0 := by
          unfold SecureBuffer.WF at h
          rw [hd] at h
          simpa using h
        simp [SecureBuffer.WF, hz]
      | some bs0 => simp [SecureBuffer.WF]
    rcases SecureBuffer.dtor_WF _ hWFres with hd | hd <;> rw [hd] at hbs
    · simp at hbs
    · simp at hbs
      rw [hbs]
      exact allZero_replicate _

/-- Witness for C2 (amended) at a buffer holding bytes 7,7, a fresh
buffer of size 3, the string "s" and the empty string. -/
theorem move_empties_source_amended_witness :
    SecureBuffer.WF (SecureBuffer.mk (some [7, 7]) 2) = true ∧
    ((SecureBuffer.moveCtor (SecureBuffer.construct 3)).2.size_bytes = 0 ∧
     (SecureBuffer.moveCtor (SecureBuffer.construct 3)).2.data = none ∧
     (SecureBuffer.moveCtor (SecureBuffer.construct 3)).2.dtor = [] ∧
     (SecureBuffer.moveCtor
        (SecureBuffer.moveCtor (SecureBuffer.construct 3)).2).2
       = SecureBuffer.mk none 0) ∧
    ((SecureBuffer.moveAssign (SecureBuffer.mk (some [7, 7]) 2)
        (SecureBuffer.construct 3)).2.size_bytes
       = (SecureBuffer.mk (some [7, 7]) 2).size_bytes ∧
     (SecureBuffer.moveAssign (SecureBuffer.mk (some [7, 7]) 2)
        (SecureBuffer.construct 3)).2.data
       = Option.map (fun _ => List.replicate 2 0) (some [7, 7]) ∧
     (∀ bs ∈ (SecureBuffer.moveAssign (SecureBuffer.mk (some [7, 7]) 2)
        (SecureBuffer.construct 3)).2.dtor, allZero bs = true)) ∧
    ((SecureString.moveCtor (SecureString.ctor [115])).2.data = [] ∧
     (SecureString.moveCtor (SecureString.ctor [115])).2.size = 0) ∧
    ((SecureString.moveAssign (SecureString.ctor [115])
        (SecureString.ctor [])).2.1.data = [] ∧
     (SecureString.moveAssign (SecureString.ctor [115])
        (SecureString.ctor [])).2.1.size = 0) := by
  have h := move_empties_source_amended (SecureBuffer.mk (some [7, 7]) 2)
      (SecureBuffer.construct 3) (SecureString.ctor [115])
      (SecureString.ctor []) (by decide)
  exact ⟨by decide, h⟩

/-- Claim C5 is false as stated for SecureString's wipe: called with a
null pointer and length 1, the unguarded loop writes through the null
pointer (undefined behaviour, the outer `none`) instead of returning
untouched, whereas SecureBuffer's guarded wipe returns immediately. -/
theorem string_wipe_null_not_noop :
    SecureString.secure_wipe none 1 = none ∧
    ¬ SecureString.secure_wipe none 1 = some none ∧
    SecureBuffer.secure_wipe none 1 = some none := by decide

/-- Claim C5 (amended): SecureBuffer's `secure_wipe` is a guarded no-op
on a null pointer or zero length. SecureString's `secure_wipe` has no
guard: with length 0 the loop body never runs so the call touches no
memory, but on a null pointer with positive length it dereferences null;
every call SecureString actually makes passes a vector's data pointer
with the vector's size — null only together with length 0 — so no call
made by the class crashes. -/
theorem wipe_guard_amended (ptr : Option (List Nat)) (len : Nat)
    (v : List Nat) (hb : ptr = none ∨ len = 0) :
    SecureBuffer.secure_wipe ptr len = some ptr ∧
    (len = 0 → SecureString.secure_wipe ptr len = some ptr) ∧
    SecureString.secure_wipe (vecPtr v) v.length ≠ none := by
  refine ⟨?_, ?_, ?_⟩
  · unfold SecureBuffer.secure_wipe
    rw [if_pos hb]
  · intro hl
    unfold SecureString.secure_wipe
    rw [if_pos hl]
  · cases v with
    | nil => simp [SecureString.secure_wipe, vecPtr]
    | cons x xs => simp [SecureString.secure_wipe, vecPtr]

/-- Witness for C5 (amended) at a one-byte allocation with length 0 and
at the vector holding the byte 115. -/
theorem wipe_guard_amended_witness :
    ((some [5] : Option (List Nat)) = none ∨ (0 : Nat) = 0) ∧
    SecureBuffer.secure_wipe (some [5]) 0 = some (some [5]) ∧
    SecureString.secure_wipe (some [5]) 0 = some (some [5]) ∧
    SecureString.secure_wipe (vecPtr [115]) ([115] : List Nat).length
      ≠ none := by
  have h := wipe_guard_amended (some [5]) 0 [115] (Or.inr rfl)
  exact ⟨Or.inr rfl, h.1, h.2.1 rfl, h.2.2⟩
